import Mathlib

/-!
Shallow embedding of `extract_features.py`: feature extraction and
classification of table fragments extracted from PDF documents.

Modelling conventions:
* A grid (the `pandas.DataFrame` produced by `read_csv(...).fillna('')`) is a
  list of rows of string cells; ragged rows are padded with `""` and the
  column count is the maximal row width, as pandas does.
* Python ints are `Nat`/`Int`; the float results of `/` and `Series.mean` are
  modelled as exact rationals `ℚ` (the float literal `0.1` becomes `1/10`).
* `re` patterns: the script only ever builds patterns of the shape
  `\b<word>(\b)?` where `<word>` is a literal except for the escape `\s`
  (whitespace class); the embedding implements exactly that fragment, with
  `\b`/`\w`/`\d`/`\s` in their ASCII reading.
* The `ZeroDivisionError` raised by `total_digits / total_chars` when a grid
  has no characters, and any exception inside the per-fragment `try`, are
  modelled by `Option`: `none` is "the computation raised".
-/

namespace ExtractFeatures

/-! ### Characters: Python `str.split` / `str.strip` whitespace, `\w`, digits -/

/-- ASCII whitespace as recognised by Python `str.split()` / `str.strip()`
and the regex class `\s`. -/
def pyIsSpace (c : Char) : Bool :=
  c = ' ' || c = '\t' || c = '\n' || c = '\r' || c = '\x0b' || c = '\x0c'

/-- A regex word character (`\w`, ASCII reading): letter, digit or `_`.
Used by the `\b` boundary assertion. -/
def isWordChar (c : Char) : Bool :=
  c.isAlphanum || c = '_'

/-- The digit characters of the literal `'0123456789'` used by
`total_digits` in `get_table_features`. -/
def pyDigits : List Char := "0123456789".data

/-! ### `str.split()` (whitespace tokenisation, no empty tokens) -/

/-- Accumulator-based splitter: `acc` holds the reversed current token. -/
def splitWsAux : List Char → List Char → List (List Char)
  | [], acc => if acc.isEmpty then [] else [acc.reverse]
  | c :: rest, acc =>
    if pyIsSpace c then
      if acc.isEmpty then splitWsAux rest [] else acc.reverse :: splitWsAux rest []
    else
      splitWsAux rest (c :: acc)

/-- Python `s.split()`: maximal runs of non-whitespace characters. -/
def pySplit (s : List Char) : List (List Char) :=
  splitWsAux s []

/-! ### `re.findall(r'\d+', c)`: maximal contiguous digit runs (lengths) -/

/-- Lengths of maximal digit runs; `n` is the length of the run currently
being read. -/
def digitRunsAux : List Char → Nat → List Nat
  | [], n => if n = 0 then [] else [n]
  | c :: rest, n =>
    if pyDigits.contains c then
      digitRunsAux rest (n + 1)
    else
      if n = 0 then digitRunsAux rest 0 else n :: digitRunsAux rest 0

/-- Lengths of the maximal contiguous digit runs of a cell, in order:
`len(d) for d in re.findall(r'\d+', c)`. -/
def digitRunLens (s : List Char) : List Nat :=
  digitRunsAux s 0

/-! ### The regex fragment used by `is_word_in` -/

/-- One token of the pattern body: a literal character, or the `\s`
whitespace class (the only escape occurring in the word catalog). -/
inductive PatTok where
  | lit (c : Char)
  | ws
  deriving DecidableEq, Repr

/-- Parse the word into pattern tokens: `\s` becomes the whitespace class,
every other character stands for itself. -/
def parsePattern : List Char → List PatTok
  | [] => []
  | '\\' :: 's' :: rest => .ws :: parsePattern rest
  | c :: rest => .lit c :: parsePattern rest

/-- Match of one token against one character; `re.IGNORECASE` compares
letters case-insensitively. -/
def tokMatch (caseSensitive : Bool) : PatTok → Char → Bool
  | .lit p, c => if caseSensitive then c = p else c.toLower = p.toLower
  | .ws, c => pyIsSpace c

/-- The token list matches a prefix of `s` (each token consumes exactly one
character). -/
def matchToks (caseSensitive : Bool) : List PatTok → List Char → Bool
  | [], _ => true
  | _ :: _, [] => false
  | t :: ts, c :: rest => tokMatch caseSensitive t c && matchToks caseSensitive ts rest

/-- Is position `i` of `s` (out of range counts as non-word) a word
character? -/
def isWordCharAt (s : List Char) (i : Nat) : Bool :=
  match s.get? i with
  | some c => isWordChar c
  | none => false

/-- The `\b` assertion holds at position `i`: exactly one of the adjacent
positions holds a word character (a string edge counts as non-word). -/
def boundaryAt (s : List Char) (i : Nat) : Bool :=
  match i with
  | 0 => isWordCharAt s 0
  | j + 1 => isWordCharAt s j != isWordCharAt s (j + 1)

/-- The pattern `\b<toks>` (and `\b<toks>\b` when `matchEnd`) matches in `s`
at position `i`. -/
def matchAt (caseSensitive matchEnd : Bool) (toks : List PatTok) (s : List Char) (i : Nat) : Bool :=
  boundaryAt s i && matchToks caseSensitive toks (s.drop i) &&
    (!matchEnd || boundaryAt s (i + toks.length))

/-- Test whether `pattern.finditer(c)` yields at least one match: some start position in
`0..len(c)` matches. -/
def cellHasMatch (word : String) (caseSensitive matchEnd : Bool) (c : String) : Bool :=
  (List.range (c.data.length + 1)).any fun i =>
    matchAt caseSensitive matchEnd (parsePattern word.data) c.data i

/-- Model of `is_word_in(word, cells, case_sensitive, match_end)`: the `for c in
cells` loop returning `True` on the first cell with a match. -/
def is_word_in (word : String) (cells : List String) (caseSensitive matchEnd : Bool) : Bool :=
  match cells with
  | [] => false
  | c :: rest =>
    if cellHasMatch word caseSensitive matchEnd c then true
    else is_word_in word rest caseSensitive matchEnd

/-! ### The grid and its flattening -/

/-- A fragment's grid: rows of string cells (`read_csv(..., dtype=str).fillna('')`). -/
abbrev Grid : Type := List (List String)

/-- Row count `len(df)`. -/
def numRows (g : Grid) : Nat := g.length

/-- Column count `len(df.columns)`: pandas gives the frame the maximal row width. -/
def numCols (g : Grid) : Nat := g.foldr (fun r m => max r.length m) 0

/-- Cell at row `i`, column `j`; short rows read as `''` (the `fillna('')`
padding). -/
def cellAt (g : Grid) (i j : Nat) : String :=
  (((g.get? i).getD []).get? j).getD ""

/-- Flattening `cells = [c for _, col in df.items() for c in col]`: column-major
flattening of the grid. -/
def gridCells (g : Grid) : List String :=
  ((List.range (numCols g)).map fun j =>
    (List.range (numRows g)).map fun i => cellAt g i j).flatten

/-! ### Grid statistics -/

/-- The per-cell word counts `[len(c.split()) for c in cells]`. -/
def wordCounts (cells : List String) : List Nat :=
  cells.map fun c => (pySplit c.data).length

/-- Count `sum(1 for c in cells for w in c.split())`. -/
def totalWords (cells : List String) : Nat :=
  (cells.map fun c => (pySplit c.data).length).sum

/-- Count `sum(1 for c in cells for char in c)`. -/
def totalChars (cells : List String) : Nat :=
  (cells.map fun c => c.data.length).sum

/-- Count `sum(1 for c in cells for char in c if char in '0123456789')`. -/
def totalDigits (cells : List String) : Nat :=
  (cells.map fun c => (c.data.filter fun ch => pyDigits.contains ch).length).sum

/-- Count `sum(1 for c in cells if c.strip() == '')`: cells whose characters are
all whitespace. -/
def emptyCells (cells : List String) : Nat :=
  (cells.filter fun c => c.data.all pyIsSpace).length

/-- Minimum `pandas.Series.min` of a nonempty integer series (the empty case never
reaches this value: an empty cell list forces `total_chars = 0`, and the
division raises first). -/
def listMin : List Nat → Nat
  | [] => 0
  | [x] => x
  | x :: y :: rest => min x (listMin (y :: rest))

/-- Maximum `pandas.Series.max` of a nonempty integer series (same remark as
`listMin`). -/
def listMax : List Nat → Nat
  | [] => 0
  | [x] => x
  | x :: y :: rest => max x (listMax (y :: rest))

/-! ### Feature records -/

/-- A feature value: Python int, float (exact rational) or bool. -/
inductive Value where
  | int (n : Int)
  | rat (q : ℚ)
  | bool (b : Bool)
  deriving DecidableEq, Repr

/-- A `collections.OrderedDict` of features: insertion-ordered key/value
pairs. -/
abbrev FeatureRecord : Type := List (String × Value)

/-- Classifier `predict_is_table`: `s['digits_perc'] > 0.1 and s['cell_words_mean'] < 5`
(the float literal `0.1` read as the exact rational `1/10`). -/
def predict_is_table (digits_perc cell_words_mean : ℚ) : Bool :=
  decide (digits_perc > 1 / 10) && decide (cell_words_mean < 5)

/-- The fixed word catalog `(word, case_sensitive, match_end)` of
`get_table_features`, in source order. -/
def wordCatalog : List (String × Bool × Bool) :=
  [ ("age", false, true),
    ("date", false, true),
    ("year", false, false),
    ("BP", true, true),
    ("BC", true, true),
    ("AD", false, true),
    ("Ka", true, true),
    ("CAL", false, true),
    ("painting", false, false),
    ("drawing", false, false),
    ("engraving", false, false),
    ("pictograph", false, false),
    ("petroglyph", false, false),
    ("AMS", true, true),
    ("Uranium\\sserie", false, false),
    ("Radiocarbon", false, true),
    ("RC14", false, true),
    ("charcoal", false, true),
    ("pigment", false, false),
    ("calcite", false, false),
    ("beeswax", false, true),
    ("varnish", false, true),
    ("bone", false, false),
    ("cave", false, false),
    ("site", false, false) ]

/-- Model of `re.sub(r'\\.', '_', name)`: replace each backslash escape (backslash
followed by any character other than newline) by `_`. -/
def escSub : List Char → List Char
  | [] => []
  | '\\' :: c :: rest =>
    if c = '\n' then '\\' :: escSub (c :: rest) else '_' :: escSub rest
  | c :: rest => c :: escSub rest

/-- The feature name of a word query:
`'w_{cs|ci}_{e|ne}_{word}'` with the word lowercased when case-insensitive
and escapes replaced by `_`. -/
def featureName (word : String) (caseSensitive matchEnd : Bool) : String :=
  let wordName := if caseSensitive then word else String.mk (word.data.map Char.toLower)
  let wordName := String.mk (escSub wordName.data)
  "w_" ++ (if caseSensitive then "cs" else "ci") ++ "_" ++
    (if matchEnd then "e" else "ne") ++ "_" ++ wordName

/-- The digit-run-length features: for each `length in range(2, 5 + 1)`, the
counter entry `digit_word_len_count.get(length, 0)`. -/
def digitFeatures (cells : List String) : FeatureRecord :=
  (List.range' 2 4).map fun len =>
    ("digit_of_len_" ++ toString len, Value.int (((cells.map fun c => digitRunLens c.data).flatten).count len))

/-- The record built by `get_table_features` once the `digits_perc` division
has succeeded (so only meaningful when `totalChars cells ≠ 0`): structural
features, then word features in catalog order, then digit features, with
`is_table` moved to the front by `move_to_end('is_table', last=False)`. -/
def buildFeatures (g : Grid) : FeatureRecord :=
  let cells := gridCells g
  let wcs := wordCounts cells
  let digits_perc : ℚ := (totalDigits cells : ℚ) / (totalChars cells : ℚ)
  let cell_words_mean : ℚ := (wcs.sum : ℚ) / (wcs.length : ℚ)
  let base : FeatureRecord :=
    [ ("columns", .int (numCols g)),
      ("rows", .int (numRows g)),
      ("cell_words_min", .int (listMin wcs)),
      ("cell_words_mean", .rat cell_words_mean),
      ("cell_words_max", .int (listMax wcs)),
      ("empty_cells", .int (emptyCells cells)),
      ("total_words", .int (totalWords cells)),
      ("total_chars", .int (totalChars cells)),
      ("total_digits", .int (totalDigits cells)),
      ("digits_perc", .rat digits_perc) ]
  let wordFeats : FeatureRecord := wordCatalog.map fun w =>
    (featureName w.1 w.2.1 w.2.2, Value.bool (is_word_in w.1 cells w.2.1 w.2.2))
  ("is_table", .bool (predict_is_table digits_perc cell_words_mean)) ::
    (base ++ wordFeats ++ digitFeatures cells)

/-- Model of `get_table_features(df)`: `none` models the `ZeroDivisionError` raised
by `total_digits / total_chars` on a grid with no characters. -/
def get_table_features (g : Grid) : Option FeatureRecord :=
  if totalChars (gridCells g) = 0 then none else some (buildFeatures g)

/-- The record of a grid whose extraction succeeded. -/
def featuresOf (g : Grid) : FeatureRecord :=
  (get_table_features g).getD []

/-- The end-to-end example grid of the specification (§8). -/
def specGrid : Grid := [["1234", "text here"], ["5678", "a b c d e f"]]

/-! ### The batch loop (lines 119–127 of the script) -/

/-- A fragment identity `(article, page, table)`. -/
structure Frag where
  article : String
  page : Nat
  table : Nat
  deriving DecidableEq, Repr

/-- The body of the `try`: load the grid (the external
`read_csv` collaborator, modelled as a parameter that may fail) and extract
features; `none` is "some exception was raised". -/
def processFragment (load : Frag → Except String Grid) (t : Frag) : Option FeatureRecord :=
  match load t with
  | .error _ => none
  | .ok g => get_table_features g

/-- The `logging.exception` message
`'Failed to extract features for table {} p.{} t.{}'`. -/
def logMsg (t : Frag) : String :=
  "Failed to extract features for table " ++ t.article ++ " p." ++ toString t.page ++
    " t." ++ toString t.table

/-- The batch loop: per fragment, append the record to `feature_list` on
success, log the failure and continue otherwise. Returns
(`feature_list`, log lines). -/
def batchRun (load : Frag → Except String Grid) : List Frag → List FeatureRecord × List String
  | [] => ([], [])
  | t :: rest =>
    match processFragment load t with
    | some r =>
      let out := batchRun load rest
      (r :: out.1, out.2)
    | none =>
      let out := batchRun load rest
      (out.1, logMsg t :: out.2)

/-! ### Helper lemmas -/

/-- Lemma: `is_word_in` realises the existential "some cell matches" semantics. -/
theorem is_word_in_iff_exists (w : String) (cs me : Bool) (cells : List String) :
    is_word_in w cells cs me = true ↔ ∃ c ∈ cells, cellHasMatch w cs me c = true := by
  induction cells with
  | nil => simp [is_word_in]
  | cons c rest ih =>
    by_cases h : cellHasMatch w cs me c = true <;>
      simp [is_word_in, h, ih]

/-- On a successful extraction, the record is `buildFeatures`. -/
theorem featuresOf_eq_buildFeatures (g : Grid) (h : get_table_features g ≠ none) :
    featuresOf g = buildFeatures g := by
  unfold featuresOf get_table_features at *
  by_cases h0 : totalChars (gridCells g) = 0
  · simp [h0] at h
  · simp [h0]

/-- On a successful extraction, the grid had characters. -/
theorem totalChars_pos_of_some (g : Grid) (h : get_table_features g ≠ none) :
    0 < totalChars (gridCells g) := by
  unfold get_table_features at h
  by_cases h0 : totalChars (gridCells g) = 0
  · simp [h0] at h
  · exact Nat.pos_of_ne_zero h0

/-- The minimum of a word-count list bounds each member. -/
theorem listMin_le_of_mem : ∀ (l : List Nat) (x : Nat), x ∈ l → listMin l ≤ x := by
  intro l
  induction l with
  | nil => intro x hx; cases hx
  | cons a t ih =>
    intro x hx
    cases t with
    | nil =>
      rcases List.mem_singleton.mp hx with rfl
      exact le_refl _
    | cons b t' =>
      rcases List.mem_cons.mp hx with rfl | hx'
      · exact min_le_left _ _
      · exact le_trans (min_le_right _ _) (ih x hx')

/-- Each member bounds the maximum of a word-count list. -/
theorem le_listMax_of_mem : ∀ (l : List Nat) (x : Nat), x ∈ l → x ≤ listMax l := by
  intro l
  induction l with
  | nil => intro x hx; cases hx
  | cons a t ih =>
    intro x hx
    cases t with
    | nil =>
      rcases List.mem_singleton.mp hx with rfl
      exact le_refl _
    | cons b t' =>
      rcases List.mem_cons.mp hx with rfl | hx'
      · exact le_max_left _ _
      · exact le_trans (ih x hx') (le_max_right _ _)

/-- Lemma: `length * min ≤ sum` for word-count lists. -/
theorem length_mul_listMin_le_sum : ∀ l : List Nat, l.length * listMin l ≤ l.sum := by
  intro l
  induction l with
  | nil => simp
  | cons a t ih =>
    cases t with
    | nil => simp [listMin]
    | cons b t' =>
      have hmin : listMin (a :: b :: t') = min a (listMin (b :: t')) := rfl
      calc (a :: b :: t').length * listMin (a :: b :: t')
          = listMin (a :: b :: t') + (b :: t').length * listMin (a :: b :: t') := by
            simp only [List.length_cons]; ring
        _ ≤ a + (b :: t').length * listMin (b :: t') := by
            refine Nat.add_le_add ?_ (Nat.mul_le_mul_left _ ?_)
            · rw [hmin]; exact min_le_left _ _
            · rw [hmin]; exact min_le_right _ _
        _ ≤ a + (b :: t').sum := Nat.add_le_add_left ih a
        _ = (a :: b :: t').sum := by simp

/-- Lemma: `sum ≤ length * max` for word-count lists. -/
theorem sum_le_length_mul_listMax : ∀ l : List Nat, l.sum ≤ l.length * listMax l := by
  intro l
  induction l with
  | nil => simp
  | cons a t ih =>
    cases t with
    | nil => simp [listMax]
    | cons b t' =>
      have hmax : listMax (a :: b :: t') = max a (listMax (b :: t')) := rfl
      calc (a :: b :: t').sum = a + (b :: t').sum := by simp
        _ ≤ a + (b :: t').length * listMax (b :: t') := Nat.add_le_add_left ih a
        _ ≤ listMax (a :: b :: t') + (b :: t').length * listMax (a :: b :: t') := by
            refine Nat.add_le_add ?_ (Nat.mul_le_mul_left _ ?_)
            · rw [hmax]; exact le_max_left _ _
            · rw [hmax]; exact le_max_right _ _
        _ = (a :: b :: t').length * listMax (a :: b :: t') := by
            simp only [List.length_cons]; ring

end ExtractFeatures

namespace ExtractFeatures

/-! ### Claims -/

/-- C1. `predict_is_table` holds exactly when `digits_perc` is strictly
greater than `0.1` (the rational `1/10`) and `cell_words_mean` is strictly
less than `5`. -/
theorem predict_is_table_iff_rule (digits_perc cell_words_mean : ℚ) :
    predict_is_table digits_perc cell_words_mean = true ↔
      digits_perc > 1 / 10 ∧ cell_words_mean < 5 := by
  simp [predict_is_table]

/-- C2 counterexample. On the all-empty grid `[[""]]` (zero total
characters) `get_table_features` yields no record at all — the
`total_digits / total_chars` division raises — so no sentinel
`digits_perc` and no `is_table = false` outcome exists. -/
theorem empty_grid_extraction_fails :
    totalChars (gridCells [[""]]) = 0 ∧ get_table_features [[""]] = none := by
  constructor <;> rfl

/-- C2 amended. Feature extraction on a grid produces no record (the
division-by-zero branch is reached) exactly when the grid's total character
count is zero; otherwise it produces a record. -/
theorem extraction_fails_iff_no_chars (g : Grid) :
    get_table_features g = none ↔ totalChars (gridCells g) = 0 := by
  by_cases h0 : totalChars (gridCells g) = 0 <;> simp [get_table_features, h0]

/-- C3 counterexample. On the grid
`[["1234","text here"],["5678","a b c d e f"]]` the classification stored in
the record is `is_table = true` (its `digits_perc` is `8/28 = 2/7 > 0.1`),
not `false` as claimed. -/
theorem example_grid_is_table_true :
    (featuresOf specGrid).lookup "is_table" = some (Value.bool true) := by
  have e : (featuresOf specGrid).lookup "is_table" =
      some (Value.bool (predict_is_table
        ((totalDigits (gridCells specGrid) : ℚ) / (totalChars (gridCells specGrid) : ℚ))
        (((wordCounts (gridCells specGrid)).sum : ℚ) /
          ((wordCounts (gridCells specGrid)).length : ℚ)))) := rfl
  rw [e, show totalDigits (gridCells specGrid) = 8 from by decide,
    show totalChars (gridCells specGrid) = 28 from by decide,
    show (wordCounts (gridCells specGrid)).sum = 10 from by decide,
    show (wordCounts (gridCells specGrid)).length = 4 from by decide]
  norm_num [predict_is_table]

/-- C3 amended. On the grid `[["1234","text here"],["5678","a b c d e f"]]`:
`total_digits = 8`, `total_chars = 28`, `digits_perc = 8/28`,
`cell_words_mean = 5/2` (mean of the per-cell word counts `[1,1,2,6]`), and
since `8/28 > 0.1` and `5/2 < 5` the resulting classification is
`is_table = true`. -/
theorem example_grid_features :
    (featuresOf specGrid).lookup "total_digits" = some (Value.int 8) ∧
    (featuresOf specGrid).lookup "total_chars" = some (Value.int 28) ∧
    (featuresOf specGrid).lookup "digits_perc" = some (Value.rat (8 / 28)) ∧
    (featuresOf specGrid).lookup "cell_words_mean" = some (Value.rat (5 / 2)) ∧
    (featuresOf specGrid).lookup "is_table" = some (Value.bool true) := by
  refine ⟨by decide, by decide, ?_, ?_, ?_⟩
  · have e : (featuresOf specGrid).lookup "digits_perc" =
        some (Value.rat ((totalDigits (gridCells specGrid) : ℚ) /
          (totalChars (gridCells specGrid) : ℚ))) := rfl
    rw [e, show totalDigits (gridCells specGrid) = 8 from by decide,
      show totalChars (gridCells specGrid) = 28 from by decide]
    norm_num
  · have e : (featuresOf specGrid).lookup "cell_words_mean" =
        some (Value.rat (((wordCounts (gridCells specGrid)).sum : ℚ) /
          ((wordCounts (gridCells specGrid)).length : ℚ))) := rfl
    rw [e, show (wordCounts (gridCells specGrid)).sum = 10 from by decide,
      show (wordCounts (gridCells specGrid)).length = 4 from by decide]
    norm_num
  · have e : (featuresOf specGrid).lookup "is_table" =
        some (Value.bool (predict_is_table
          ((totalDigits (gridCells specGrid) : ℚ) / (totalChars (gridCells specGrid) : ℚ))
          (((wordCounts (gridCells specGrid)).sum : ℚ) /
            ((wordCounts (gridCells specGrid)).length : ℚ)))) := rfl
    rw [e, show totalDigits (gridCells specGrid) = 8 from by decide,
      show totalChars (gridCells specGrid) = 28 from by decide,
      show (wordCounts (gridCells specGrid)).sum = 10 from by decide,
      show (wordCounts (gridCells specGrid)).length = 4 from by decide]
    norm_num [predict_is_table]

/-- C4. The word matcher honours case sensitivity and the end-boundary
flag: `"BP"` (case-sensitive, end-bounded) matches a collection containing
`"12000 BP"` but neither `"12000 bp"` nor `"BPx"` alone; `"age"`
(case-insensitive, no end boundary) matches collections containing `"ages"`
or `"Age:"`. -/
theorem word_matcher_examples :
    is_word_in "BP" ["some text", "12000 BP"] true true = true ∧
    is_word_in "BP" ["12000 bp"] true true = false ∧
    is_word_in "BP" ["BPx"] true true = false ∧
    is_word_in "age" ["ages"] false false = true ∧
    is_word_in "age" ["Age:"] false false = true := by
  refine ⟨rfl, rfl, rfl, rfl, rfl⟩

/-- C6. The digit histogram reports, for each maximal-digit-run length in
the closed range `[2,5]`, the number of runs of that length over all cells
(`0` when none, never missing), and on `["12", "12345", "7"]` it yields
counts `1, 0, 0, 1` for lengths `2, 3, 4, 5`. -/
theorem digit_histogram_fields :
    (∀ cells : List String,
      digitFeatures cells =
        [ ("digit_of_len_2", Value.int (((cells.map fun c => digitRunLens c.data).flatten).count 2)),
          ("digit_of_len_3", Value.int (((cells.map fun c => digitRunLens c.data).flatten).count 3)),
          ("digit_of_len_4", Value.int (((cells.map fun c => digitRunLens c.data).flatten).count 4)),
          ("digit_of_len_5", Value.int (((cells.map fun c => digitRunLens c.data).flatten).count 5)) ]) ∧
    digitFeatures ["12", "12345", "7"] =
      [ ("digit_of_len_2", Value.int 1),
        ("digit_of_len_3", Value.int 0),
        ("digit_of_len_4", Value.int 0),
        ("digit_of_len_5", Value.int 1) ] := by
  exact ⟨fun cells => rfl, rfl⟩

/-- C5. `is_word_in` has "exists" semantics: it returns `true` exactly when
some cell of the collection contains a match, the result is independent of
the order of the cells, and the empty collection yields `false`. -/
theorem is_word_in_exists_semantics (w : String) (cs me : Bool)
    (cells cells' : List String) (hp : cells.Perm cells') :
    (is_word_in w cells cs me = true ↔ ∃ c ∈ cells, cellHasMatch w cs me c = true) ∧
    is_word_in w [] cs me = false ∧
    is_word_in w cells cs me = is_word_in w cells' cs me := by
  refine ⟨is_word_in_iff_exists w cs me cells, rfl, ?_⟩
  have h1 := is_word_in_iff_exists w cs me cells
  have h2 := is_word_in_iff_exists w cs me cells'
  have hex : (∃ c ∈ cells, cellHasMatch w cs me c = true) ↔
      ∃ c ∈ cells', cellHasMatch w cs me c = true :=
    ⟨fun ⟨c, hc, hm⟩ => ⟨c, hp.mem_iff.mp hc, hm⟩,
     fun ⟨c, hc, hm⟩ => ⟨c, hp.mem_iff.mpr hc, hm⟩⟩
  exact Bool.eq_iff_iff.mpr (h1.trans (hex.trans h2.symm))

/-- C5 witness: the exists-semantics theorem at a concrete pattern and a
concrete pair of permuted cell collections. -/
theorem is_word_in_exists_semantics_witness :
    (is_word_in "age" ["12000 BP", "ages"] false false = true ↔
      ∃ c ∈ ["12000 BP", "ages"], cellHasMatch "age" false false c = true) ∧
    is_word_in "age" [] false false = false ∧
    is_word_in "age" ["12000 BP", "ages"] false false =
      is_word_in "age" ["ages", "12000 BP"] false false :=
  is_word_in_exists_semantics "age" false false _ _ (List.Perm.swap "ages" "12000 BP" [])

/-- C7. A successfully extracted record has the fixed field set in the
fixed order: `is_table`, the ten structural features, the 25 word features
in catalog order under the deterministic naming scheme, then the four
digit-length counts in ascending order. -/
theorem feature_record_field_order (g : Grid) (h : get_table_features g ≠ none) :
    (featuresOf g).map Prod.fst =
      [ "is_table", "columns", "rows", "cell_words_min", "cell_words_mean",
        "cell_words_max", "empty_cells", "total_words", "total_chars",
        "total_digits", "digits_perc",
        "w_ci_e_age", "w_ci_e_date", "w_ci_ne_year", "w_cs_e_BP", "w_cs_e_BC",
        "w_ci_e_ad", "w_cs_e_Ka", "w_ci_e_cal", "w_ci_ne_painting",
        "w_ci_ne_drawing", "w_ci_ne_engraving", "w_ci_ne_pictograph",
        "w_ci_ne_petroglyph", "w_cs_e_AMS", "w_ci_ne_uranium_serie",
        "w_ci_e_radiocarbon", "w_ci_e_rc14", "w_ci_e_charcoal",
        "w_ci_ne_pigment", "w_ci_ne_calcite", "w_ci_e_beeswax",
        "w_ci_e_varnish", "w_ci_ne_bone", "w_ci_ne_cave", "w_ci_ne_site",
        "digit_of_len_2", "digit_of_len_3", "digit_of_len_4", "digit_of_len_5" ] := by
  rw [featuresOf_eq_buildFeatures g h]
  rfl

/-- C7 witness: the field-order theorem at the concrete grid `[["1"]]`. -/
theorem feature_record_field_order_witness :
    (featuresOf [["1"]]).map Prod.fst =
      [ "is_table", "columns", "rows", "cell_words_min", "cell_words_mean",
        "cell_words_max", "empty_cells", "total_words", "total_chars",
        "total_digits", "digits_perc",
        "w_ci_e_age", "w_ci_e_date", "w_ci_ne_year", "w_cs_e_BP", "w_cs_e_BC",
        "w_ci_e_ad", "w_cs_e_Ka", "w_ci_e_cal", "w_ci_ne_painting",
        "w_ci_ne_drawing", "w_ci_ne_engraving", "w_ci_ne_pictograph",
        "w_ci_ne_petroglyph", "w_cs_e_AMS", "w_ci_ne_uranium_serie",
        "w_ci_e_radiocarbon", "w_ci_e_rc14", "w_ci_e_charcoal",
        "w_ci_ne_pigment", "w_ci_ne_calcite", "w_ci_e_beeswax",
        "w_ci_e_varnish", "w_ci_ne_bone", "w_ci_ne_cave", "w_ci_ne_site",
        "digit_of_len_2", "digit_of_len_3", "digit_of_len_4", "digit_of_len_5" ] :=
  feature_record_field_order [["1"]] (by decide)

/-- C8. On a successful extraction: `total_digits ≤ total_chars`, the total
character count is positive, the stored `digits_perc` is exactly
`total_digits / total_chars`, and that ratio lies in `[0, 1]`. (The totals
are `ℕ`-valued by construction, hence non-negative.) -/
theorem digits_perc_invariants (g : Grid) (h : get_table_features g ≠ none) :
    totalDigits (gridCells g) ≤ totalChars (gridCells g) ∧
    0 < totalChars (gridCells g) ∧
    (featuresOf g).lookup "digits_perc" =
      some (Value.rat ((totalDigits (gridCells g) : ℚ) / (totalChars (gridCells g) : ℚ))) ∧
    0 ≤ (totalDigits (gridCells g) : ℚ) / (totalChars (gridCells g) : ℚ) ∧
    (totalDigits (gridCells g) : ℚ) / (totalChars (gridCells g) : ℚ) ≤ 1 := by
  have hdc : totalDigits (gridCells g) ≤ totalChars (gridCells g) := by
    unfold totalDigits totalChars
    exact List.sum_le_sum fun c _ => List.length_filter_le _ _
  have hpos := totalChars_pos_of_some g h
  have hposq : (0 : ℚ) < (totalChars (gridCells g) : ℚ) := by exact_mod_cast hpos
  refine ⟨hdc, hpos, ?_, ?_, ?_⟩
  · rw [featuresOf_eq_buildFeatures g h]
    rfl
  · exact div_nonneg (Nat.cast_nonneg _) (Nat.cast_nonneg _)
  · rw [div_le_one hposq]
    exact_mod_cast hdc

/-- C8 witness: the invariants at the concrete grid `[["1"]]`. -/
theorem digits_perc_invariants_witness :
    totalDigits (gridCells [["1"]]) ≤ totalChars (gridCells [["1"]]) ∧
    0 < totalChars (gridCells [["1"]]) ∧
    (featuresOf [["1"]]).lookup "digits_perc" =
      some (Value.rat ((totalDigits (gridCells [["1"]]) : ℚ) /
        (totalChars (gridCells [["1"]]) : ℚ))) ∧
    0 ≤ (totalDigits (gridCells [["1"]]) : ℚ) / (totalChars (gridCells [["1"]]) : ℚ) ∧
    (totalDigits (gridCells [["1"]]) : ℚ) / (totalChars (gridCells [["1"]]) : ℚ) ≤ 1 :=
  digits_perc_invariants [["1"]] (by decide)

/-- C9. The batch loop processes every fragment: the accumulated output is
exactly the in-order sequence of successfully processed fragments' records,
and each failing fragment contributes exactly its identity-bearing log line;
no failure aborts the rest (`batchRun` is total and structural in the
list). -/
theorem batchRun_isolates_failures (load : Frag → Except String Grid) (ids : List Frag) :
    (batchRun load ids).1 = ids.filterMap (processFragment load) ∧
    (batchRun load ids).2 =
      (ids.filter fun t => (processFragment load t).isNone).map logMsg := by
  induction ids with
  | nil => exact ⟨rfl, rfl⟩
  | cons t rest ih =>
    cases h : processFragment load t with
    | some r =>
      simp [batchRun, h, List.filterMap_cons, List.filter_cons, ih.1, ih.2]
    | none =>
      simp [batchRun, h, List.filterMap_cons, List.filter_cons, ih.1, ih.2]

/-- C10. For a grid with at least one cell, the per-cell word-count
statistics are ordered, `min ≤ mean ≤ max`, and `total_words` is the sum of
the per-cell word counts. -/
theorem word_count_stats_ordered (g : Grid) (h : gridCells g ≠ []) :
    (listMin (wordCounts (gridCells g)) : ℚ) ≤
      ((wordCounts (gridCells g)).sum : ℚ) / ((wordCounts (gridCells g)).length : ℚ) ∧
    ((wordCounts (gridCells g)).sum : ℚ) / ((wordCounts (gridCells g)).length : ℚ) ≤
      (listMax (wordCounts (gridCells g)) : ℚ) ∧
    totalWords (gridCells g) = (wordCounts (gridCells g)).sum := by
  have hne : wordCounts (gridCells g) ≠ [] := by
    unfold wordCounts
    simpa using h
  have hlen : 0 < (wordCounts (gridCells g)).length := List.length_pos.mpr hne
  have hlenq : (0 : ℚ) < ((wordCounts (gridCells g)).length : ℚ) := by exact_mod_cast hlen
  refine ⟨?_, ?_, rfl⟩
  · rw [le_div_iff₀ hlenq]
    have := length_mul_listMin_le_sum (wordCounts (gridCells g))
    calc (listMin (wordCounts (gridCells g)) : ℚ) * ((wordCounts (gridCells g)).length : ℚ)
        = (((wordCounts (gridCells g)).length * listMin (wordCounts (gridCells g)) : ℕ) : ℚ) := by
          push_cast; ring
      _ ≤ ((wordCounts (gridCells g)).sum : ℚ) := by exact_mod_cast this
  · rw [div_le_iff₀ hlenq]
    have := sum_le_length_mul_listMax (wordCounts (gridCells g))
    calc ((wordCounts (gridCells g)).sum : ℚ)
        ≤ (((wordCounts (gridCells g)).length * listMax (wordCounts (gridCells g)) : ℕ) : ℚ) := by
          exact_mod_cast this
      _ = (listMax (wordCounts (gridCells g)) : ℚ) * ((wordCounts (gridCells g)).length : ℚ) := by
          push_cast; ring

/-- C10 witness: the ordering at the concrete grid `[["a", "b c"]]`. -/
theorem word_count_stats_ordered_witness :
    (listMin (wordCounts (gridCells [["a", "b c"]])) : ℚ) ≤
      ((wordCounts (gridCells [["a", "b c"]])).sum : ℚ) /
        ((wordCounts (gridCells [["a", "b c"]])).length : ℚ) ∧
    ((wordCounts (gridCells [["a", "b c"]])).sum : ℚ) /
        ((wordCounts (gridCells [["a", "b c"]])).length : ℚ) ≤
      (listMax (wordCounts (gridCells [["a", "b c"]])) : ℚ) ∧
    totalWords (gridCells [["a", "b c"]]) = (wordCounts (gridCells [["a", "b c"]])).sum :=
  word_count_stats_ordered [["a", "b c"]] (by decide)

end ExtractFeatures
